import Mathlib

/-!
Verification of the sentry-javascript session-replay coordinator.

The development shallowly embeds the replay session and flush coordinator:
the global event listener is translated from
`packages/replay/src/coreHandlers/handleGlobalEvent.ts`; the collaborators
whose implementation is not part of the sources at hand (flush coordinator
internals, session lifecycle, debounce utility) are modelled from the
specification, each such definition marked `Modelled from the spec`.
-/

namespace Replay

/-- Recording mode of the replay container: continuous session recording or
buffer-until-error recording. -/
inductive Mode where
  | session
  | error
deriving DecidableEq, Repr

/-- Sampling decision recomputed when a session is created. -/
inductive Sampled where
  | session
  | error
  | unsampled
deriving DecidableEq, Repr

/-- A replay session: opaque identifier, creation timestamp, last-activity
timestamp and the sampling decision. -/
structure Session where
  id : String
  started : Nat
  lastActivity : Nat
  sampled : Sampled
deriving DecidableEq, Repr

/-- Correlation identifiers accumulated during the current segment window
(trace ids of transactions, event ids of errors).  The source stores them in
JS Sets; membership-preserving insertion models that. -/
structure ReplayCtx where
  traceIds : List String
  errorIds : List (Option String)
deriving DecidableEq, Repr

/-- Insertion into a JS Set: a no-op when the element is already present. -/
def addToSet {α : Type} [DecidableEq α] (l : List α) (x : α) : List α :=
  if x ∈ l then l else l ++ [x]

/-- The trace context of an event (contexts.trace). -/
structure TraceCtx where
  trace_id : Option String
deriving DecidableEq, Repr

/-- The contexts object of an event. -/
structure Contexts where
  trace : Option TraceCtx
deriving DecidableEq, Repr

/-- An outbound error/transaction event as seen by the global event
processor: `type` is absent for error events, `exception` records whether the
event carries a (truthy) exception object, `tags` is the JS tags object whose
values may themselves be undefined. -/
structure Event where
  type : Option String
  event_id : Option String
  contexts : Option Contexts
  exception : Bool
  tags : List (String × Option String)
deriving DecidableEq, Repr

/-- JS object-spread update of a tags object: the key is bound to the new
value, every other key keeps its value. -/
def setTag (tags : List (String × Option String)) (key : String) (v : Option String) :
    List (String × Option String) :=
  (tags.filter fun p => p.1 ≠ key) ++ [(key, v)]

/-- Lookup of a key in a tags object: `none` when the key is absent,
`some v` when the key is present with (possibly undefined) value `v`. -/
def lookupTag (tags : List (String × Option String)) (key : String) :
    Option (Option String) :=
  (tags.find? fun p => p.1 = key).map Prod.snd

/-- The truthiness guard of handleGlobalEvent.ts line 19: the event is a
transaction and `event.contexts && event.contexts.trace &&
event.contexts.trace.trace_id` is truthy (in JS an empty string is falsy). -/
def transactionTraceId (e : Event) : Option String :=
  if e.type = some "transaction" then
    match e.contexts with
    | some cs =>
      match cs.trace with
      | some tr =>
        match tr.trace_id with
        | some tid => if tid = "" then none else some tid
        | none => none
      | none => none
    | none => none
  else none

/-- State of one ReplayContainer instance, as far as the global event
listener and the error-to-session transition touch it.  `buffer` and
`segments` carry opaque record identities; `scheduled` counts transition
tasks queued with setTimeout but not yet run. -/
structure ReplayState where
  recordingMode : Mode
  session : Option Session
  context : ReplayCtx
  isRecording : Bool
  buffer : List Nat
  segments : List (List Nat)
  scheduled : Nat
deriving DecidableEq, Repr

/-- The global event listener of
`packages/replay/src/coreHandlers/handleGlobalEvent.ts`.  Returns the
(possibly tagged) event, the updated container state, and whether the
error-to-session transition task was scheduled (the setTimeout at line 40).
The internal debug breadcrumb (lines 29-36) has no effect on the event or
the container state and is omitted. -/
def handleGlobalEventListener (replay : ReplayState) (event : Event) :
    Event × ReplayState × Bool :=
  -- Only tag transactions with replayId if not waiting for an error
  let event :=
    if event.type ≠ some "transaction" ∨ replay.recordingMode = Mode.session then
      { event with tags := setTag event.tags "replayId" (replay.session.map Session.id) }
    else event
  -- Collect traceIds in _context regardless of recordingMode
  match transactionTraceId event with
  | some tid =>
    (event,
     { replay with
        context := { replay.context with traceIds := addToSet replay.context.traceIds tid } },
     false)
  | none =>
    -- no event type means error
    let replay :=
      if event.type = none then
        { replay with
            context := { replay.context with errorIds := addToSet replay.context.errorIds event.event_id } }
      else replay
    (event, replay, replay.recordingMode = Mode.error && event.exception)

/-- The listener as the registered global event processor: the source always
returns the event (it never suppresses one by returning null). -/
def applyGlobalEventProcessor (replay : ReplayState) (event : Event) : Option Event :=
  some (handleGlobalEventListener replay event).1

/-- Modelled from the spec: `flushImmediate` of the Replay Container
(section 4.3) — on firing, the flush atomically swaps out the Recording
Buffer, turning its contents into one flushed segment and leaving an empty
buffer; the Flush Coordinator source itself is not among the files at hand. -/
def flushImmediate (s : ReplayState) : ReplayState :=
  { s with segments := s.segments ++ [s.buffer], buffer := [] }

/-- Modelled from the spec: `stopRecording` (section 4.4 `stop()`) halts the
recording engine and returns whether a recording was actually active. -/
def stopRecording (s : ReplayState) : Bool × ReplayState :=
  (s.isRecording, { s with isRecording := false })

/-- Modelled from the spec: `startRecording` (section 6 Recording Engine)
begins capture with a fresh checkout. -/
def startRecording (s : ReplayState) : ReplayState :=
  { s with isRecording := true }

/-- Observable operations performed by the error-to-session transition task,
in execution order. -/
inductive RecAction where
  | flush
  | stopRec
  | setModeSession
  | startRec
deriving DecidableEq, Repr

/-- The body of the setTimeout callback of handleGlobalEvent.ts lines 40-53:
await flushImmediate, then stopRecording, and — only when a recording was
actually active — switch the mode to session and restart the recording
engine.  The returned list records the operations in the order the source
performs them. -/
def errorTransitionTask (s : ReplayState) : ReplayState × List RecAction :=
  let s1 := flushImmediate s
  let stopped := stopRecording s1
  if stopped.1 then
    let s3 := { stopped.2 with recordingMode := Mode.session }
    (startRecording s3,
     [RecAction.flush, RecAction.stopRec, RecAction.setModeSession, RecAction.startRec])
  else
    (stopped.2, [RecAction.flush, RecAction.stopRec])

/-- One interleaving step of the container's single-threaded event loop:
process an outbound event through the listener, run one queued transition
task, ingest one recording-engine record, or fire a flush. -/
inductive Step where
  | processEvent (e : Event)
  | runTask
  | ingest (r : Nat)
  | requestFlush
deriving DecidableEq, Repr

/-- Small-step semantics of the container state under `Step`. -/
def step (s : ReplayState) : Step → ReplayState
  | Step.processEvent e =>
    let res := handleGlobalEventListener s e
    if res.2.2 then { res.2.1 with scheduled := res.2.1.scheduled + 1 } else res.2.1
  | Step.runTask =>
    if s.scheduled = 0 then s
    else (errorTransitionTask { s with scheduled := s.scheduled - 1 }).1
  | Step.ingest r =>
    if s.isRecording then { s with buffer := s.buffer ++ [r] } else s
  | Step.requestFlush => flushImmediate s

/-- Run of a list of steps. -/
def run (s : ReplayState) : List Step → ReplayState
  | [] => s
  | st :: tr => run (step s st) tr

/-- All record identities held by the container: flushed segments followed by
the live buffer. -/
def allRecords (s : ReplayState) : List Nat :=
  s.segments.flatten ++ s.buffer

/-- Freshness of one step: an ingested record identity is new — the
recording engine never delivers the same record twice. -/
def freshStep (s : ReplayState) : Step → Bool
  | Step.ingest r => decide (r ∉ allRecords s)
  | _ => true

/-- Freshness of a whole trace. -/
def freshTrace (s : ReplayState) : List Step → Bool
  | [] => true
  | st :: tr => freshStep s st && freshTrace (step s st) tr

/-- Modelled from the spec: the bookkeeping state of the Flush Coordinator
(section 4.3) — a single mutable "flush in progress" flag and the recorded
immediate request; the Flush Coordinator source is not among the files at
hand.  `running` counts serializations currently executing and `started`
counts serializations ever begun (both are observables of the model, not
flags the coordinator consults). -/
structure FlushState where
  inProgress : Bool
  pendingRequest : Bool
  running : Nat
  started : Nat
deriving DecidableEq, Repr

/-- External stimulus of the Flush Coordinator: a flush request, or the
settling (resolution) of the in-flight flush. -/
inductive FlushEv where
  | request
  | settle
deriving DecidableEq, Repr

/-- Modelled from the spec: the Flush Coordinator's transition function —
a request while a flush is in progress is only recorded; the settling of the
in-flight flush re-triggers a recorded request immediately. -/
def flushStep (s : FlushState) : FlushEv → FlushState
  | FlushEv.request =>
    if s.inProgress then { s with pendingRequest := true }
    else { s with inProgress := true, running := s.running + 1, started := s.started + 1 }
  | FlushEv.settle =>
    if s.inProgress then
      if s.pendingRequest then
        { s with pendingRequest := false, inProgress := true, started := s.started + 1 }
      else { s with inProgress := false, running := s.running - 1 }
    else s

/-- Initial coordinator state: no flush in progress, nothing recorded. -/
def flushInit : FlushState :=
  { inProgress := false, pendingRequest := false, running := 0, started := 0 }

/-- Run of the coordinator over a list of stimuli. -/
def runFlushCo (s : FlushState) : List FlushEv → FlushState
  | [] => s
  | ev :: tr => runFlushCo (flushStep s ev) tr

/-- Modelled from the spec: the debounce-with-max-wait policy (section 4.3)
— each call resets the short timer to `wait` from now; the first call of a
cycle arms a max-wait timer that is never reset; the callback fires at the
earlier deadline, which ends the cycle.  The state is `some (short, maxDl)`
while a cycle is armed.  Requests are processed in arrival order; a deadline
that has passed when a request arrives fires first and the request starts a
new cycle.  Returns the firing times. -/
def debounceGo (wait maxWait : Nat) : Option (Nat × Nat) → List Nat → List Nat
  | none, [] => []
  | some sm, [] => [min sm.1 sm.2]
  | none, t :: rest => debounceGo wait maxWait (some (t + wait, t + maxWait)) rest
  | some sm, t :: rest =>
    if min sm.1 sm.2 ≤ t then
      min sm.1 sm.2 :: debounceGo wait maxWait (some (t + wait, t + maxWait)) rest
    else
      debounceGo wait maxWait (some (t + wait, sm.2)) rest

/-- Firing times produced by a sequence of debounced flush requests given in
arrival order. -/
def debounceFires (wait maxWait : Nat) (reqs : List Nat) : List Nat :=
  debounceGo wait maxWait none reqs

/-- Modelled from the spec: configuration of the Session Lifecycle
(section 4.1) — inactivity and maximum-age thresholds and the configured
sample rates, rates given as thresholds for a pseudo-random draw. -/
structure SessionOptions where
  inactivityTimeoutMs : Nat
  maxSessionAgeMs : Nat
  sessionSampleRate : Nat
  errorSampleRate : Nat
deriving DecidableEq, Repr

/-- Modelled from the spec: the sampling decision recomputed at session
creation by applying the configured session-mode rate, then the error-mode
rate, to pseudo-random draws. -/
def sampleDecision (drawS drawE : Nat) (opts : SessionOptions) : Sampled :=
  if drawS < opts.sessionSampleRate then Sampled.session
  else if drawE < opts.errorSampleRate then Sampled.error
  else Sampled.unsampled

/-- Modelled from the spec: creation of a fresh Session (section 4.1) —
fresh identifier, new timestamps, recomputed sampling decision. -/
def makeSession (newId : String) (now drawS drawE : Nat) (opts : SessionOptions) : Session :=
  { id := newId, started := now, lastActivity := now,
    sampled := sampleDecision drawS drawE opts }

/-- Modelled from the spec: the Session Store (section 6) — a durable
per-origin key-value surface holding at most the one replay session;
`setFails` simulates storage failure (quota, disabled storage) on writes. -/
structure SessionStore where
  data : Option Session
  setFails : Bool
deriving DecidableEq, Repr

/-- Modelled from the spec: a Session Store write, which may fail. -/
def storeSet (st : SessionStore) (s : Session) : Except String SessionStore :=
  if st.setFails then Except.error "storage write failed"
  else Except.ok { st with data := some s }

/-- Modelled from the spec: persisting a session treats a storage failure as
non-fatal — the store is left as it was and the session lives in memory. -/
def saveSession (st : SessionStore) (s : Session) : SessionStore :=
  match storeSet st s with
  | Except.ok st2 => st2
  | Except.error _ => st

/-- Modelled from the spec: the expiry test of section 4.1 — the persisted
session is stale when `now - lastActivity > inactivityTimeoutMs` or
`now - started > maxSessionAgeMs`. -/
def isSessionExpired (s : Session) (now : Nat) (opts : SessionOptions) : Bool :=
  decide (now - s.lastActivity > opts.inactivityTimeoutMs) ||
    decide (now - s.started > opts.maxSessionAgeMs)

/-- Modelled from the spec: `getOrCreateSession` (section 4.1) — reads the
persisted session; if absent or expired, creates a fresh session and
persists it (persistence failure is caught and non-fatal); the `Except`
codomain makes explicit that no storage error escapes to the caller. -/
def getOrCreateSession (st : SessionStore) (now : Nat) (newId : String)
    (drawS drawE : Nat) (opts : SessionOptions) :
    Except String (SessionStore × Session) :=
  match st.data with
  | some s =>
    if isSessionExpired s now opts then
      let ns := makeSession newId now drawS drawE opts
      Except.ok (saveSession st ns, ns)
    else Except.ok (st, s)
  | none =>
    let ns := makeSession newId now drawS drawE opts
    Except.ok (saveSession st ns, ns)

/-- Modelled from the spec: `deleteSession` removes the persisted session;
removal of an absent key is a no-op and never raises (the deleteSession
test asserts both). -/
def deleteSession (st : SessionStore) : Except String SessionStore :=
  Except.ok { st with data := none }

/-! Concrete fixtures used to instantiate the theorems. -/

/-- A sampled error-mode session. -/
def sessionA : Session :=
  { id := "ab12", started := 100, lastActivity := 100, sampled := Sampled.error }

/-- Lifecycle thresholds used by the concrete instances. -/
def optsA : SessionOptions :=
  { inactivityTimeoutMs := 50, maxSessionAgeMs := 1000,
    sessionSampleRate := 500, errorSampleRate := 500 }

/-- A store persisting `sessionA`. -/
def storeA : SessionStore := { data := some sessionA, setFails := false }

/-- An empty store whose writes fail. -/
def failingEmptyStore : SessionStore := { data := none, setFails := true }

/-- A container in error mode, recording, with two buffered records. -/
def stateErrorMode : ReplayState :=
  { recordingMode := Mode.error, session := some sessionA,
    context := { traceIds := [], errorIds := [] },
    isRecording := true, buffer := [1, 2], segments := [], scheduled := 0 }

/-- The error-mode container with one transition task already queued. -/
def stateErrorScheduled : ReplayState :=
  { stateErrorMode with scheduled := 1 }

/-- A container in session mode. -/
def stateSessionMode : ReplayState :=
  { stateErrorMode with recordingMode := Mode.session }

/-- An error event without exception data (captureMessage-style). -/
def msgErrorEvent : Event :=
  { type := none, event_id := some "e1", contexts := none, exception := false, tags := [] }

/-- A second error event without exception data. -/
def msgErrorEventB : Event :=
  { type := none, event_id := some "e2", contexts := none, exception := false, tags := [] }

/-- An error event carrying exception data. -/
def excErrorEvent : Event :=
  { type := none, event_id := some "e3", contexts := none, exception := true, tags := [] }

/-- A transaction event carrying a trace id. -/
def traceTransaction : Event :=
  { type := some "transaction", event_id := some "t2",
    contexts := some { trace := some { trace_id := some "tr-1" } },
    exception := false, tags := [] }

/-- A transaction event already carrying a replayId tag. -/
def taggedTransaction : Event :=
  { type := some "transaction", event_id := some "t1", contexts := none,
    exception := false, tags := [("replayId", some "prior")] }

end Replay

namespace Replay

/-! Helper lemmas about the listener. -/

theorem lookupTag_setTag_self (tags : List (String × Option String)) (key : String)
    (v : Option String) : lookupTag (setTag tags key v) key = some v := by
  induction tags with
  | nil => simp [setTag, lookupTag]
  | cons p tl ih =>
    by_cases h : p.1 = key
    · simpa [setTag, h] using ih
    · simp only [setTag, lookupTag, List.find?] at ih ⊢
      simp [h]

theorem listener_state_eq (s : ReplayState) (e : Event) :
    ∃ ctx, (handleGlobalEventListener s e).2.1 = { s with context := ctx } := by
  unfold handleGlobalEventListener
  dsimp only
  split <;> split
  all_goals first
    | exact ⟨_, rfl⟩
    | (split
       · exact ⟨_, rfl⟩
       · exact ⟨s.context, rfl⟩)

theorem listener_recordingMode (s : ReplayState) (e : Event) :
    (handleGlobalEventListener s e).2.1.recordingMode = s.recordingMode := by
  obtain ⟨ctx, h⟩ := listener_state_eq s e
  rw [h]

theorem transactionTraceId_setTags (e : Event) (t : List (String × Option String)) :
    transactionTraceId { e with tags := t } = transactionTraceId e := rfl

theorem mem_addToSet_self {α : Type} [DecidableEq α] (l : List α) (x : α) :
    x ∈ addToSet l x := by
  unfold addToSet
  split
  · assumption
  · simp

/-- C9: for every event passed to the global event listener, the listener
returns that same event (never suppressing it by returning null), and the
only field it may modify is `tags`; every other field of the event is
unchanged. -/
theorem listener_returns_event_modifying_only_tags (s : ReplayState) (e : Event) :
    ∃ t, applyGlobalEventProcessor s e = some { e with tags := t } := by
  unfold applyGlobalEventProcessor handleGlobalEventListener
  dsimp only
  split <;> split
  all_goals exact ⟨_, rfl⟩

/-- C10 (amended): the listener sets a `replayId` tag equal to the current
session id on every event, except when the event is a transaction and the
recording mode is `error`, in which case the listener leaves the event's
tags exactly as they were (it does not add a replayId tag, and a
pre-existing replayId tag is preserved). -/
theorem replayId_tagging (s : ReplayState) (e : Event) (sess : Session)
    (hsess : s.session = some sess) :
    ((e.type ≠ some "transaction" ∨ s.recordingMode = Mode.session) →
      lookupTag (handleGlobalEventListener s e).1.tags "replayId" = some (some sess.id))
    ∧ (e.type = some "transaction" → s.recordingMode = Mode.error →
      (handleGlobalEventListener s e).1.tags = e.tags) := by
  constructor
  · intro hcond
    unfold handleGlobalEventListener
    dsimp only
    rw [if_pos hcond]
    split <;> simp [hsess, lookupTag_setTag_self]
  · intro ht hm
    unfold handleGlobalEventListener
    dsimp only
    rw [if_neg (by simp [ht, hm])]
    split <;> rfl

/-- C10 counterexample: in error mode, a transaction that already carries a
`replayId` tag is returned with that tag still present, refuting the claim
that such a transaction is returned without a replayId tag. -/
theorem transaction_error_mode_keeps_replay_tag :
    lookupTag (handleGlobalEventListener stateErrorMode taggedTransaction).1.tags "replayId"
      = some (some "prior")
    ∧ lookupTag (handleGlobalEventListener stateErrorMode taggedTransaction).1.tags "replayId"
      ≠ none := by
  constructor
  · rfl
  · decide

/-- C10 witness: a transaction in session mode is tagged with the session
id; a transaction in error mode keeps its tags unchanged. -/
theorem replayId_tagging_witness :
    lookupTag (handleGlobalEventListener stateSessionMode taggedTransaction).1.tags "replayId"
      = some (some "ab12")
    ∧ (handleGlobalEventListener stateErrorMode taggedTransaction).1.tags
      = taggedTransaction.tags := by
  constructor
  · exact (replayId_tagging stateSessionMode taggedTransaction sessionA rfl).1 (Or.inr rfl)
  · exact (replayId_tagging stateErrorMode taggedTransaction sessionA rfl).2 rfl rfl

/-- C8: the Replay Context accumulates correlation identifiers regardless of
the recording mode — a transaction carrying contexts.trace.trace_id has that
trace id added to the traceIds set, and an event with no type (an error
event) has its event_id added to the errorIds set. -/
theorem context_accumulates_correlation_ids (s : ReplayState) (e : Event) :
    (∀ tid, transactionTraceId e = some tid →
      tid ∈ (handleGlobalEventListener s e).2.1.context.traceIds)
    ∧ (e.type = none →
      e.event_id ∈ (handleGlobalEventListener s e).2.1.context.errorIds) := by
  constructor
  · intro tid htid
    by_cases hc : e.type ≠ some "transaction" ∨ s.recordingMode = Mode.session
    · unfold handleGlobalEventListener
      dsimp only
      rw [if_pos hc, transactionTraceId_setTags, htid]
      exact mem_addToSet_self _ _
    · unfold handleGlobalEventListener
      dsimp only
      rw [if_neg hc, htid]
      exact mem_addToSet_self _ _
  · intro ht
    have hnone : transactionTraceId e = none := by simp [transactionTraceId, ht]
    by_cases hc : e.type ≠ some "transaction" ∨ s.recordingMode = Mode.session
    · unfold handleGlobalEventListener
      dsimp only
      rw [if_pos hc, transactionTraceId_setTags, hnone]
      dsimp only
      rw [if_pos ht]
      exact mem_addToSet_self _ _
    · unfold handleGlobalEventListener
      dsimp only
      rw [if_neg hc, hnone]
      dsimp only
      rw [if_pos ht]
      exact mem_addToSet_self _ _

/-- C8 witness: the trace id of a concrete transaction lands in traceIds,
and the event id of a concrete error event lands in errorIds. -/
theorem context_accumulates_correlation_ids_witness :
    "tr-1" ∈ (handleGlobalEventListener stateSessionMode traceTransaction).2.1.context.traceIds
    ∧ (some "e1" : Option String)
      ∈ (handleGlobalEventListener stateErrorMode msgErrorEvent).2.1.context.errorIds := by
  constructor
  · exact (context_accumulates_correlation_ids stateSessionMode traceTransaction).1
      "tr-1" (by decide)
  · exact (context_accumulates_correlation_ids stateErrorMode msgErrorEvent).2 rfl

/-! Helper lemmas about the transition semantics. -/

theorem listener_schedules (s : ReplayState) (e : Event)
    (hmode : s.recordingMode = Mode.error) (htype : e.type = none)
    (hexc : e.exception = true) :
    (handleGlobalEventListener s e).2.2 = true := by
  have hnone : transactionTraceId e = none := by simp [transactionTraceId, htype]
  have hc : e.type ≠ some "transaction" ∨ s.recordingMode = Mode.session :=
    Or.inl (by simp [htype])
  unfold handleGlobalEventListener
  dsimp only
  rw [if_pos hc, transactionTraceId_setTags, hnone]
  dsimp only
  rw [if_pos htype]
  simp [hmode, hexc]

theorem step_processEvent_scheduled (s : ReplayState) (e : Event)
    (h : (handleGlobalEventListener s e).2.2 = true) :
    (step s (Step.processEvent e)).scheduled = s.scheduled + 1 := by
  obtain ⟨ctx, hctx⟩ := listener_state_eq s e
  unfold step
  dsimp only
  rw [if_pos h, hctx]

theorem step_recordingMode (s : ReplayState) (st : Step) :
    (step s st).recordingMode = s.recordingMode ∨
      (step s st).recordingMode = Mode.session := by
  cases st with
  | processEvent e =>
    obtain ⟨ctx, hctx⟩ := listener_state_eq s e
    unfold step
    dsimp only
    split
    · left
      rw [hctx]
    · left
      rw [hctx]
  | runTask =>
    unfold step errorTransitionTask flushImmediate stopRecording startRecording
    dsimp only
    split
    · left
      rfl
    · split
      · right
        rfl
      · left
        rfl
  | ingest r =>
    unfold step
    dsimp only
    split
    · left
      rfl
    · left
      rfl
  | requestFlush =>
    left
    rfl

theorem run_session_mono (tr : List Step) :
    ∀ s : ReplayState, s.recordingMode = Mode.session →
      (run s tr).recordingMode = Mode.session := by
  induction tr with
  | nil => exact fun s h => h
  | cons st tl ih =>
    intro s h
    unfold run
    apply ih
    rcases step_recordingMode s st with h2 | h2
    · rw [h2, h]
    · exact h2

/-- C4 (amended): the error-to-session mode transition occurs at most once
per page lifetime — a transition task is scheduled by the global event
listener when an event carrying exception data arrives while the recording
mode is `error` (an error event without exception data does not trigger
it), and once the mode is `session` no sequence of steps ever returns the
mode to `error`. -/
theorem error_to_session_at_most_once (s : ReplayState) (e : Event) (tr : List Step)
    (hmode : s.recordingMode = Mode.error) (htype : e.type = none)
    (hexc : e.exception = true) :
    (step s (Step.processEvent e)).scheduled = s.scheduled + 1
    ∧ (∀ s2 : ReplayState, s2.recordingMode = Mode.session →
        (run s2 tr).recordingMode = Mode.session) := by
  constructor
  · exact step_processEvent_scheduled s e (listener_schedules s e hmode htype hexc)
  · exact fun s2 h => run_session_mono tr s2 h

/-- C4 counterexample: an error event (no type) without exception data
arriving in error mode schedules no transition and leaves the mode `error`,
refuting the claim that the transition is triggered whenever an error event
arrives while the recording mode is `error`. -/
theorem error_event_without_exception_no_transition :
    (step stateErrorMode (Step.processEvent msgErrorEventB)).scheduled = 0
    ∧ (step stateErrorMode (Step.processEvent msgErrorEventB)).recordingMode = Mode.error
    ∧ (run stateErrorMode [Step.processEvent msgErrorEventB, Step.runTask]).recordingMode
        = Mode.error := by
  decide

/-- C4 witness: an exception-carrying error event in error mode queues the
transition task, and a session-mode container stays in session mode. -/
theorem error_to_session_at_most_once_witness :
    (step stateErrorMode (Step.processEvent excErrorEvent)).scheduled
      = stateErrorMode.scheduled + 1
    ∧ (run stateSessionMode [Step.runTask]).recordingMode = Mode.session := by
  have h := error_to_session_at_most_once stateErrorMode excErrorEvent [Step.runTask]
    rfl rfl rfl
  exact ⟨h.1, h.2 stateSessionMode rfl⟩

/-- C1 (amended): when an error event carrying exception data arrives while
the recording mode is `error`, the coordinator schedules the transition
task; that task performs, in strict order, (a) flush of the error-mode
buffer as its own segment, (b) stop of the recording engine, and — when the
engine was actually recording — (c) switch of the mode to `session` and
(d) a fresh restart of the engine; in every execution of the task the
restart never happens before the flush. -/
theorem error_transition_strict_order (s : ReplayState) (e : Event)
    (hmode : s.recordingMode = Mode.error) (htype : e.type = none)
    (hexc : e.exception = true) :
    (handleGlobalEventListener s e).2.2 = true
    ∧ (s.isRecording = true →
        errorTransitionTask s =
          ({ s with
              segments := s.segments ++ [s.buffer], buffer := [],
              recordingMode := Mode.session, isRecording := true },
            [RecAction.flush, RecAction.stopRec, RecAction.setModeSession,
              RecAction.startRec]))
    ∧ (∀ i j : Fin (errorTransitionTask s).2.length,
        (errorTransitionTask s).2.get i = RecAction.startRec →
        (errorTransitionTask s).2.get j = RecAction.flush → (j : Nat) < (i : Nat)) := by
  refine ⟨listener_schedules s e hmode htype hexc, ?_, ?_⟩
  · intro hrec
    unfold errorTransitionTask flushImmediate stopRecording startRecording
    dsimp only
    rw [if_pos hrec]
  · cases hrec : s.isRecording with
    | false =>
      have hlist : (errorTransitionTask s).2 = [RecAction.flush, RecAction.stopRec] := by
        unfold errorTransitionTask flushImmediate stopRecording startRecording
        dsimp only
        rw [hrec]
        rfl
      revert hlist
      generalize (errorTransitionTask s).2 = L
      intro hL
      subst hL
      decide
    | true =>
      have hlist : (errorTransitionTask s).2 =
          [RecAction.flush, RecAction.stopRec, RecAction.setModeSession,
            RecAction.startRec] := by
        unfold errorTransitionTask flushImmediate stopRecording startRecording
        dsimp only
        rw [hrec]
        rfl
      revert hlist
      generalize (errorTransitionTask s).2 = L
      intro hL
      subst hL
      decide

/-- C1 counterexample: an error event without exception data arriving in
error mode performs none of the four steps — nothing is flushed, the engine
keeps recording, the mode stays `error` and no task is scheduled — refuting
the claim that the sequence is performed whenever an error event arrives
while the recording mode is `error`. -/
theorem error_event_without_exception_no_flush :
    (step stateErrorMode (Step.processEvent msgErrorEvent)).scheduled = 0
    ∧ (step stateErrorMode (Step.processEvent msgErrorEvent)).segments = []
    ∧ (step stateErrorMode (Step.processEvent msgErrorEvent)).isRecording = true
    ∧ (step stateErrorMode (Step.processEvent msgErrorEvent)).recordingMode
        = Mode.error := by
  decide

/-- C1 witness: on the concrete error-mode container the exception-carrying
error event schedules the task, and the task flushes the two buffered
records as their own segment before switching mode and restarting. -/
theorem error_transition_strict_order_witness :
    (handleGlobalEventListener stateErrorMode excErrorEvent).2.2 = true
    ∧ errorTransitionTask stateErrorMode =
        ({ stateErrorMode with
            segments := [[1, 2]], buffer := [],
            recordingMode := Mode.session, isRecording := true },
          [RecAction.flush, RecAction.stopRec, RecAction.setModeSession,
            RecAction.startRec]) := by
  have h := error_transition_strict_order stateErrorMode excErrorEvent rfl rfl rfl
  refine ⟨h.1, ?_⟩
  rw [h.2.1 rfl]
  rfl

/-! Helper lemmas about record conservation. -/

theorem allRecords_flushImmediate (s : ReplayState) :
    allRecords (flushImmediate s) = allRecords s := by
  simp [allRecords, flushImmediate]

theorem allRecords_errorTransitionTask (s : ReplayState) :
    allRecords (errorTransitionTask s).1 = allRecords s := by
  unfold errorTransitionTask stopRecording startRecording
  dsimp only
  split <;> simp [allRecords, flushImmediate]

theorem allRecords_step_processEvent (s : ReplayState) (e : Event) :
    allRecords (step s (Step.processEvent e)) = allRecords s := by
  obtain ⟨ctx, hctx⟩ := listener_state_eq s e
  unfold step
  dsimp only
  split <;> rw [hctx] <;> rfl

theorem nodup_allRecords_step (s : ReplayState) (st : Step)
    (hnd : (allRecords s).Nodup) (hf : freshStep s st = true) :
    (allRecords (step s st)).Nodup := by
  cases st with
  | processEvent e =>
    rw [allRecords_step_processEvent]
    exact hnd
  | runTask =>
    unfold step
    dsimp only
    split
    · exact hnd
    · rw [allRecords_errorTransitionTask]
      exact hnd
  | ingest r =>
    have hr : r ∉ allRecords s := by simpa [freshStep] using hf
    unfold step
    dsimp only
    split
    · have : allRecords { s with buffer := s.buffer ++ [r] } = allRecords s ++ [r] := by
        simp [allRecords]
      rw [this]
      simp [List.nodup_append, hnd, hr]
    · exact hnd
  | requestFlush =>
    rw [show allRecords (step s Step.requestFlush) = allRecords s from
      allRecords_flushImmediate s]
    exact hnd

theorem nodup_allRecords_run (tr : List Step) :
    ∀ s : ReplayState, (allRecords s).Nodup → freshTrace s tr = true →
      (allRecords (run s tr)).Nodup := by
  induction tr with
  | nil => exact fun s h _ => h
  | cons st tl ih =>
    intro s h hf
    rw [freshTrace, Bool.and_eq_true] at hf
    exact ih (step s st) (nodup_allRecords_step s st h hf.1) hf.2

theorem segments_pairwise_disjoint {L : List (List Nat)} (h : L.flatten.Nodup) :
    ∀ i j : Fin L.length, ∀ r : Nat, r ∈ L.get i → r ∈ L.get j → i = j := by
  have hp := (List.nodup_flatten.mp h).2
  rw [List.pairwise_iff_getElem] at hp
  intro i j r hi hj
  by_contra hne
  have hne2 : (i : Nat) ≠ (j : Nat) := fun hh => hne (Fin.ext hh)
  rcases Nat.lt_or_ge (i : Nat) (j : Nat) with hlt | hge
  · exact hp i j i.isLt j.isLt hlt hi hj
  · exact hp j i j.isLt i.isLt (lt_of_le_of_ne hge (Ne.symm hne2)) hj hi

/-- C3: with each record carrying a fresh identity when ingested, no record
is ever duplicated across flushed segments — any record occurring in two
segments occurs at the same segment index — and the error-to-session
transition task flushes exactly the pre-transition buffer as its own
segment, restarting with an empty buffer, so a record ingested before the
transition appears only in the pre-transition segment and never in a
post-transition one. -/
theorem records_not_duplicated_across_segments (s : ReplayState) (tr : List Step)
    (hnd : (allRecords s).Nodup) (hf : freshTrace s tr = true) :
    (∀ i j : Fin (run s tr).segments.length, ∀ r : Nat,
        r ∈ (run s tr).segments.get i → r ∈ (run s tr).segments.get j → i = j)
    ∧ (errorTransitionTask s).1.segments = s.segments ++ [s.buffer]
    ∧ (errorTransitionTask s).1.buffer = [] := by
  refine ⟨?_, ?_, ?_⟩
  · have h1 := nodup_allRecords_run tr s hnd hf
    unfold allRecords at h1
    exact segments_pairwise_disjoint (List.Nodup.of_append_left h1)
  · unfold errorTransitionTask flushImmediate stopRecording startRecording
    dsimp only
    split <;> rfl
  · unfold errorTransitionTask flushImmediate stopRecording startRecording
    dsimp only
    split <;> rfl

/-- C3 witness: on the concrete error-mode container with records 1 and 2
buffered and the transition task queued, running the task, ingesting record
3 and flushing again yields pairwise-disjoint segments, and the task's own
segment is exactly the pre-transition buffer. -/
theorem records_not_duplicated_across_segments_witness :
    (∀ i j : Fin (run stateErrorScheduled
          [Step.runTask, Step.ingest 3, Step.requestFlush]).segments.length,
      ∀ r : Nat,
        r ∈ (run stateErrorScheduled
          [Step.runTask, Step.ingest 3, Step.requestFlush]).segments.get i →
        r ∈ (run stateErrorScheduled
          [Step.runTask, Step.ingest 3, Step.requestFlush]).segments.get j → i = j)
    ∧ (errorTransitionTask stateErrorScheduled).1.segments
        = stateErrorScheduled.segments ++ [stateErrorScheduled.buffer]
    ∧ (errorTransitionTask stateErrorScheduled).1.buffer = [] :=
  records_not_duplicated_across_segments stateErrorScheduled
    [Step.runTask, Step.ingest 3, Step.requestFlush] (by decide) (by decide)

/-! Helper lemmas about the flush coordinator. -/

theorem flushStep_inv (s : FlushState) (ev : FlushEv)
    (h : s.running = if s.inProgress then 1 else 0) :
    (flushStep s ev).running = if (flushStep s ev).inProgress then 1 else 0 := by
  cases ev with
  | request =>
    unfold flushStep
    dsimp only
    split
    · next hip =>
      rw [hip] at h
      simpa using h
    · next hip =>
      simp only [Bool.not_eq_true] at hip
      rw [hip] at h
      simp at h
      simp [h]
  | settle =>
    unfold flushStep
    dsimp only
    split
    · next hip =>
      rw [hip] at h
      simp at h
      split
      · simp [h]
      · simp [h]
    · next hip =>
      simp only [Bool.not_eq_true] at hip
      rw [hip] at h
      simpa using h

theorem runFlushCo_inv (tr : List FlushEv) :
    ∀ s : FlushState, (s.running = if s.inProgress then 1 else 0) →
      (runFlushCo s tr).running = if (runFlushCo s tr).inProgress then 1 else 0 := by
  induction tr with
  | nil => exact fun s h => h
  | cons ev tl ih =>
    intro s h
    exact ih (flushStep s ev) (flushStep_inv s ev h)

/-- C2: in every state the Flush Coordinator can reach from its initial
state, at most one flush is in progress; a flush requested while one is in
progress is only recorded (no second serialization starts), and when the
in-progress flush settles the recorded request is re-triggered immediately
(a new serialization starts and the record is cleared), so no requested
flush is dropped and no two serializations run concurrently. -/
theorem flush_coordinator_single_flight (tr : List FlushEv) :
    (runFlushCo flushInit tr).running ≤ 1
    ∧ ((runFlushCo flushInit tr).inProgress = true →
        flushStep (runFlushCo flushInit tr) FlushEv.request
          = { runFlushCo flushInit tr with pendingRequest := true })
    ∧ ((runFlushCo flushInit tr).inProgress = true →
        (runFlushCo flushInit tr).pendingRequest = true →
        (flushStep (runFlushCo flushInit tr) FlushEv.settle).inProgress = true
        ∧ (flushStep (runFlushCo flushInit tr) FlushEv.settle).started
            = (runFlushCo flushInit tr).started + 1
        ∧ (flushStep (runFlushCo flushInit tr) FlushEv.settle).pendingRequest
            = false) := by
  refine ⟨?_, ?_, ?_⟩
  · have h := runFlushCo_inv tr flushInit rfl
    rw [h]
    split <;> omega
  · intro hip
    unfold flushStep
    dsimp only
    rw [if_pos hip]
  · intro hip hpend
    unfold flushStep
    dsimp only
    rw [if_pos hip, if_pos hpend]
    exact ⟨rfl, rfl, rfl⟩

/-- C2 witness: after two back-to-back requests, one flush is running and
the second is recorded; settling starts the recorded flush immediately. -/
theorem flush_coordinator_single_flight_witness :
    (runFlushCo flushInit [FlushEv.request, FlushEv.request]).running ≤ 1
    ∧ flushStep (runFlushCo flushInit [FlushEv.request, FlushEv.request]) FlushEv.request
        = { runFlushCo flushInit [FlushEv.request, FlushEv.request] with
            pendingRequest := true }
    ∧ (flushStep (runFlushCo flushInit [FlushEv.request, FlushEv.request])
          FlushEv.settle).started
        = (runFlushCo flushInit [FlushEv.request, FlushEv.request]).started + 1 := by
  have h := flush_coordinator_single_flight [FlushEv.request, FlushEv.request]
  exact ⟨h.1, h.2.1 rfl, (h.2.2 rfl rfl).2.1⟩

/-- C5: for a persisted session with lastActivity T and configured
inactivity timeout D, a lifecycle check at T + D + 1 returns a fresh
session — new identifier (different from the prior one), new timestamps and
a recomputed sampling decision — while a check at T + D - 1 returns the
persisted session with the same identifier. -/
theorem session_expiry_boundary (sess : Session) (T D : Nat) (newId : String)
    (drawS drawE : Nat) (opts : SessionOptions) (st : SessionStore)
    (hla : sess.lastActivity = T) (hD : opts.inactivityTimeoutMs = D)
    (hst : st.data = some sess) (hid : newId ≠ sess.id)
    (hage : T + D - 1 - sess.started ≤ opts.maxSessionAgeMs) :
    (∃ st2 s2, getOrCreateSession st (T + D + 1) newId drawS drawE opts
        = Except.ok (st2, s2)
      ∧ s2.id = newId ∧ s2.id ≠ sess.id
      ∧ s2.started = T + D + 1 ∧ s2.lastActivity = T + D + 1
      ∧ s2.sampled = sampleDecision drawS drawE opts)
    ∧ (∃ st3 s3, getOrCreateSession st (T + D - 1) newId drawS drawE opts
        = Except.ok (st3, s3) ∧ s3.id = sess.id) := by
  constructor
  · have hexp : isSessionExpired sess (T + D + 1) opts = true := by
      simp only [isSessionExpired, hla, hD, Bool.or_eq_true, decide_eq_true_eq]
      left
      omega
    unfold getOrCreateSession
    rw [hst]
    dsimp only
    rw [if_pos hexp]
    exact ⟨_, _, rfl, rfl, hid, rfl, rfl, rfl⟩
  · have hexp : isSessionExpired sess (T + D - 1) opts = false := by
      simp only [isSessionExpired, hla, hD, Bool.or_eq_false_iff,
        decide_eq_false_iff_not, not_lt]
      exact ⟨by omega, by omega⟩
    unfold getOrCreateSession
    rw [hst]
    dsimp only
    rw [if_neg (by simp [hexp])]
    exact ⟨st, sess, rfl, rfl⟩

/-- C5 witness: with sessionA persisted (lastActivity 100, timeout 50), a
check at 151 creates a fresh differently-named session and a check at 149
keeps the identifier. -/
theorem session_expiry_boundary_witness :
    (∃ st2 s2, getOrCreateSession storeA 151 "cd34" 600 100 optsA
        = Except.ok (st2, s2)
      ∧ s2.id = "cd34" ∧ s2.id ≠ sessionA.id
      ∧ s2.started = 151 ∧ s2.lastActivity = 151
      ∧ s2.sampled = sampleDecision 600 100 optsA)
    ∧ (∃ st3 s3, getOrCreateSession storeA 149 "cd34" 600 100 optsA
        = Except.ok (st3, s3) ∧ s3.id = sessionA.id) :=
  session_expiry_boundary sessionA 100 50 "cd34" 600 100 optsA storeA
    rfl rfl rfl (by decide) (by decide)

/-- C7: when the Session Store's set throws, getOrCreateSession still
returns a valid in-memory session (with the requested identifier and
timestamps) without raising, leaving the store untouched; and deleteSession
does not throw when no session is persisted. -/
theorem storage_failure_in_memory_session (st : SessionStore) (now : Nat)
    (newId : String) (drawS drawE : Nat) (opts : SessionOptions)
    (hfail : st.setFails = true) (hnone : st.data = none) :
    (∃ s2, getOrCreateSession st now newId drawS drawE opts = Except.ok (st, s2)
      ∧ s2.id = newId ∧ s2.started = now ∧ s2.lastActivity = now)
    ∧ (∃ st2, deleteSession st = Except.ok st2 ∧ st2.data = none) := by
  constructor
  · refine ⟨makeSession newId now drawS drawE opts, ?_, rfl, rfl, rfl⟩
    unfold getOrCreateSession
    rw [hnone]
    dsimp only
    unfold saveSession storeSet
    rw [if_pos hfail]
  · exact ⟨{ st with data := none }, rfl, rfl⟩

/-- C7 witness: the failing empty store still yields a valid in-memory
session and a non-throwing deletion. -/
theorem storage_failure_in_memory_session_witness :
    (∃ s2, getOrCreateSession failingEmptyStore 7 "fresh1" 0 0 optsA
        = Except.ok (failingEmptyStore, s2)
      ∧ s2.id = "fresh1" ∧ s2.started = 7 ∧ s2.lastActivity = 7)
    ∧ (∃ st2, deleteSession failingEmptyStore = Except.ok st2 ∧ st2.data = none) :=
  storage_failure_in_memory_session failingEmptyStore 7 "fresh1" 0 0 optsA rfl rfl

/-! Helper lemma for the debounce analysis. -/

theorem debounceGo_single (wait maxWait m : Nat) :
    ∀ (rest : List Nat) (sdl : Nat),
      (∀ u ∈ rest, u < m) →
      (∀ u ∈ rest.head?, u < sdl) →
      List.Chain' (fun a b => a ≤ b ∧ b < a + wait) rest →
      ∃ f, debounceGo wait maxWait (some (sdl, m)) rest = [f] ∧ f ≤ m := by
  intro rest
  induction rest with
  | nil =>
    intro sdl _ _ _
    exact ⟨min sdl m, rfl, Nat.min_le_right _ _⟩
  | cons u tl ih =>
    intro sdl hm hh hch
    have hum : u < m := hm u (List.mem_cons_self u tl)
    have hus : u < sdl := hh u rfl
    have hnotfire : ¬ min sdl m ≤ u := Nat.not_le.mpr (lt_min_iff.mpr ⟨hus, hum⟩)
    unfold debounceGo
    dsimp only
    rw [if_neg hnotfire]
    have hch2 := List.chain'_cons'.mp hch
    exact ih (u + wait) (fun v hv => hm v (List.mem_cons_of_mem u hv))
      (fun v hv => (hch2.1 v hv).2) hch2.2

/-- C6 (amended): N requests each arriving strictly within debounceMs of the
previous one AND all arriving strictly before maxWaitMs has elapsed since
the first produce exactly one flush, firing no later than maxWaitMs after
the first request.  Without the max-wait bound the claim fails: the ceiling
can fire mid-sequence and a later request of the same within-debounce
sequence starts a second flush cycle. -/
theorem debounce_single_flush_within_max_wait (wait maxWait t : Nat)
    (rest : List Nat)
    (hchain : List.Chain' (fun a b => a ≤ b ∧ b < a + wait) (t :: rest))
    (hbound : ∀ u ∈ rest, u < t + maxWait) :
    ∃ f, debounceFires wait maxWait (t :: rest) = [f] ∧ f ≤ t + maxWait := by
  have h0 : debounceFires wait maxWait (t :: rest)
      = debounceGo wait maxWait (some (t + wait, t + maxWait)) rest := rfl
  rw [h0]
  have hch2 := List.chain'_cons'.mp hchain
  exact debounceGo_single wait maxWait (t + maxWait) rest (t + wait) hbound
    (fun v hv => (hch2.1 v hv).2) hch2.2

/-- C6 counterexample: with debounceMs 5 and maxWaitMs 6, the requests at
times 0, 4, 8 each arrive within debounceMs of the previous one, yet two
flushes fire (at 6 and 13): the max-wait ceiling fires mid-sequence and the
request at 8 starts a second cycle, refuting the claim that any such
sequence produces exactly one flush. -/
theorem debounce_two_flushes_within_gaps :
    debounceFires 5 6 [0, 4, 8] = [6, 13]
    ∧ (4 - 0 < 5 ∧ 8 - 4 < 5)
    ∧ (debounceFires 5 6 [0, 4, 8]).length ≠ 1 := by
  decide

/-- C6 witness: three requests at 0, 1, 2 with debounceMs 5 and maxWaitMs 6
produce exactly one flush, no later than 6. -/
theorem debounce_single_flush_witness :
    ∃ f, debounceFires 5 6 [0, 1, 2] = [f] ∧ f ≤ 0 + 6 :=
  debounce_single_flush_within_max_wait 5 6 0 [1, 2]
    (List.chain'_cons.mpr ⟨⟨by omega, by omega⟩,
      List.chain'_cons.mpr ⟨⟨by omega, by omega⟩, List.chain'_singleton 2⟩⟩)
    (by decide)

end Replay
